import Mathlib

/-!
Verification of `src/apply.py` (Indeed application bot).

The Python program drives a browser through a multi-step job-application
workflow.  This file shallowly embeds the pure control-flow and data logic of
the relevant functions; everything the code obtains from the browser driver
(element lookups, click results, page text) is passed in explicitly as
oracle data, so each embedded function is an executable Lean function of the
same decisions the Python code makes.

String handling is modelled over ASCII: Python's `str.lower`, `str.strip`
and `int(str)` are reproduced for ASCII inputs (the configuration and page
keywords used by the program are all ASCII).
-/

namespace IndeedBot

/-! ## String helpers (ASCII models of the Python string primitives) -/

/-- ASCII lower-casing of one character, as Python's `str.lower` does for
ASCII letters. -/
def lowerChar (c : Char) : Char :=
  if 65 ≤ c.toNat ∧ c.toNat ≤ 90 then Char.ofNat (c.toNat + 32) else c

/-- ASCII model of Python's `str.lower`. -/
def str_lower (s : String) : String :=
  String.mk (s.toList.map lowerChar)

/-- `listStartsWith pat l` is true when `pat` is an initial segment of `l`. -/
def listStartsWith : List Char → List Char → Bool
  | [], _ => true
  | _ :: _, [] => false
  | a :: as, b :: bs => a == b && listStartsWith as bs

/-- `containsSub pat hay` is true when `pat` occurs contiguously in `hay`;
this is Python's `pat in hay` on strings. -/
def containsSub (pat : List Char) : List Char → Bool
  | [] => pat.isEmpty
  | c :: rest => listStartsWith pat (c :: rest) || containsSub pat rest

/-- Python's substring test `sub in s`. -/
def strContains (s sub : String) : Bool :=
  containsSub sub.toList s.toList

/-! ## Page classifier (`detect_page_type`, src/apply.py lines 849-887)

The classifier reads the current page through the browser driver.  A
`PageProbe` records exactly what the Python code observes: the stripped text
of the first heading element found by the ordered candidate locators
(`none` when no locator matched, in which case `page_info['title']` stays
`''`), and the three structural probes used in the fallback branch. -/

structure PageProbe where
  /-- Stripped text of the first located heading element; `none` if no
  heading locator matched. -/
  heading : Option String
  /-- `driver.find_elements('input[type="file"]')` nonempty. -/
  hasFileInput : Bool
  /-- `driver.find_elements('.ia-Questions-item')` nonempty. -/
  hasQuestionsItem : Bool
  /-- `driver.find_elements('input[name*="phone"], input[name*="email"]')`
  nonempty. -/
  hasPhoneEmailInput : Bool
deriving DecidableEq

/-- The `page_info` dict returned by `detect_page_type`. -/
structure PageInfo where
  ptype : String
  title : String
deriving DecidableEq

def upload_keywords : List String := ["resume", "cv", "upload", "documents"]

def contact_keywords : List String := ["contact", "information", "details"]

def questions_keywords : List String := ["questions", "screening", "assessment"]

def review_keywords : List String := ["review", "summary", "confirm"]

/-- Python's `any(keyword in title_lower for keyword in keywords)`. -/
def keywordMatch (title_lower : String) (keywords : List String) : Bool :=
  keywords.any (fun k => strContains title_lower k)

/-- `detect_page_type` (src/apply.py 849-887): keyword classification of the
heading text in priority order upload, contact, questions, review; structural
fallback when no keyword set matches. -/
def detect_page_type (p : PageProbe) : PageInfo :=
  let title := p.heading.getD ""
  let title_lower := str_lower title
  if keywordMatch title_lower upload_keywords then ⟨"upload", title⟩
  else if keywordMatch title_lower contact_keywords then ⟨"contact", title⟩
  else if keywordMatch title_lower questions_keywords then ⟨"questions", title⟩
  else if keywordMatch title_lower review_keywords then ⟨"review", title⟩
  else if p.hasFileInput then ⟨"upload", title⟩
  else if p.hasQuestionsItem then ⟨"questions", title⟩
  else if p.hasPhoneEmailInput then ⟨"contact", title⟩
  else ⟨"unknown", title⟩

/-- C2: heading-keyword classification in fixed priority order:
an upload keyword in the lower-cased heading yields type `upload`; the four
keyword sets are tested in the order upload, contact, questions, review and
the first set containing a matching keyword determines the type. -/
theorem detect_page_type_keyword_priority (p : PageProbe) :
    (keywordMatch (str_lower (p.heading.getD "")) upload_keywords = true →
      (detect_page_type p).ptype = "upload") ∧
    (keywordMatch (str_lower (p.heading.getD "")) upload_keywords = false →
     keywordMatch (str_lower (p.heading.getD "")) contact_keywords = true →
      (detect_page_type p).ptype = "contact") ∧
    (keywordMatch (str_lower (p.heading.getD "")) upload_keywords = false →
     keywordMatch (str_lower (p.heading.getD "")) contact_keywords = false →
     keywordMatch (str_lower (p.heading.getD "")) questions_keywords = true →
      (detect_page_type p).ptype = "questions") ∧
    (keywordMatch (str_lower (p.heading.getD "")) upload_keywords = false →
     keywordMatch (str_lower (p.heading.getD "")) contact_keywords = false →
     keywordMatch (str_lower (p.heading.getD "")) questions_keywords = false →
     keywordMatch (str_lower (p.heading.getD "")) review_keywords = true →
      (detect_page_type p).ptype = "review") := by
  refine ⟨?_, ?_, ?_, ?_⟩
  · intro h1
    simp [detect_page_type, h1]
  · intro h1 h2
    simp [detect_page_type, h1, h2]
  · intro h1 h2 h3
    simp [detect_page_type, h1, h2, h3]
  · intro h1 h2 h3 h4
    simp [detect_page_type, h1, h2, h3, h4]

def pageUploadEx : PageProbe :=
  { heading := some "Upload your resume", hasFileInput := false,
    hasQuestionsItem := false, hasPhoneEmailInput := false }

def pageContactEx : PageProbe :=
  { heading := some "Add your contact information", hasFileInput := false,
    hasQuestionsItem := false, hasPhoneEmailInput := false }

def pageQuestionsEx : PageProbe :=
  { heading := some "Screening questions", hasFileInput := false,
    hasQuestionsItem := false, hasPhoneEmailInput := false }

def pageReviewEx : PageProbe :=
  { heading := some "Review your application", hasFileInput := false,
    hasQuestionsItem := false, hasPhoneEmailInput := false }

/-- Witness for C2 at the four concrete headings. -/
theorem detect_page_type_keyword_priority_witness :
    (detect_page_type pageUploadEx).ptype = "upload" ∧
    (detect_page_type pageContactEx).ptype = "contact" ∧
    (detect_page_type pageQuestionsEx).ptype = "questions" ∧
    (detect_page_type pageReviewEx).ptype = "review" :=
  ⟨(detect_page_type_keyword_priority pageUploadEx).1 (by decide),
   (detect_page_type_keyword_priority pageContactEx).2.1 (by decide) (by decide),
   (detect_page_type_keyword_priority pageQuestionsEx).2.2.1 (by decide)
     (by decide) (by decide),
   (detect_page_type_keyword_priority pageReviewEx).2.2.2 (by decide)
     (by decide) (by decide) (by decide)⟩

/-- Abbreviation: none of the four keyword sets matches the (possibly empty)
heading text. -/
def noKeywordMatch (p : PageProbe) : Prop :=
  keywordMatch (str_lower (p.heading.getD "")) upload_keywords = false ∧
  keywordMatch (str_lower (p.heading.getD "")) contact_keywords = false ∧
  keywordMatch (str_lower (p.heading.getD "")) questions_keywords = false ∧
  keywordMatch (str_lower (p.heading.getD "")) review_keywords = false

instance (p : PageProbe) : Decidable (noKeywordMatch p) := by
  unfold noKeywordMatch; infer_instance

/-- C3: when no heading is found (so the title stays empty) no keyword set
matches, and when no keyword set matches the structural probes decide the
type in order: file input ⇒ upload, questions container ⇒ questions,
phone/email input ⇒ contact, otherwise unknown. -/
theorem detect_page_type_structural_fallback (p : PageProbe) :
    (p.heading = none → noKeywordMatch p) ∧
    (noKeywordMatch p →
      (p.hasFileInput = true → (detect_page_type p).ptype = "upload") ∧
      (p.hasFileInput = false → p.hasQuestionsItem = true →
        (detect_page_type p).ptype = "questions") ∧
      (p.hasFileInput = false → p.hasQuestionsItem = false →
       p.hasPhoneEmailInput = true → (detect_page_type p).ptype = "contact") ∧
      (p.hasFileInput = false → p.hasQuestionsItem = false →
       p.hasPhoneEmailInput = false → (detect_page_type p).ptype = "unknown")) := by
  constructor
  · intro h
    rw [noKeywordMatch, h]
    decide
  · rintro ⟨h1, h2, h3, h4⟩
    refine ⟨?_, ?_, ?_, ?_⟩
    · intro hf
      simp [detect_page_type, h1, h2, h3, h4, hf]
    · intro hf hq
      simp [detect_page_type, h1, h2, h3, h4, hf, hq]
    · intro hf hq hp
      simp [detect_page_type, h1, h2, h3, h4, hf, hq, hp]
    · intro hf hq hp
      simp [detect_page_type, h1, h2, h3, h4, hf, hq, hp]

def pageNoHeadingFileEx : PageProbe :=
  { heading := none, hasFileInput := true,
    hasQuestionsItem := false, hasPhoneEmailInput := false }

/-- Witness for C3: a page with no heading and a file input classifies as
upload via the structural fallback. -/
theorem detect_page_type_structural_fallback_witness :
    (detect_page_type pageNoHeadingFileEx).ptype = "upload" :=
  ((detect_page_type_structural_fallback pageNoHeadingFileEx).2
    ((detect_page_type_structural_fallback pageNoHeadingFileEx).1 rfl)).1 rfl

/-! ## Configuration (`BotConfig`, src/apply.py lines 87-237)

`BotConfig` is a flat record: one rational for `load_delay` (a Python float)
and a string for every other field, in the source's declaration order.
`__post_init__` runs, in order, required-field validation, file-path
validation, experience validation, and input sanitization; the first raised
exception aborts construction.  The two filesystem facts the file-path check
consults (`Path.exists`, `Path.is_file`) are passed in as oracle booleans. -/

structure BotConfig where
  load_delay : ℚ
  resume_path : String
  phone : String
  address : String
  city : String
  postal : String
  state : String
  github : String
  linkedin : String
  university : String
  python_exp : String
  javascript_exp : String
  java_exp : String
  aws_exp : String
  django_exp : String
  analysis_exp : String
  teaching_exp : String
  programming_exp : String
  default_exp : String
  salary : String
  work_authorized : String
  education : String
  sponsorship_needed : String
  commute_willing : String
  commute_willing_alt : String
  preferred_shift : String
  disability_status : String
  dbs_check : String
  criminal_record : String
  valid_cert : String
  gender : String
  available_hours : String
  interview_availability : String
  default_unknown_answer : String
deriving DecidableEq

/-- The `required_fields` list of `_validate_required_fields`, paired with
the field values (a missing field is an empty string, which is falsy). -/
def required_pairs (c : BotConfig) : List (String × String) :=
  [("phone", c.phone), ("address", c.address), ("city", c.city),
   ("postal", c.postal), ("state", c.state)]

/-- `BotConfig._validate_required_fields` (src/apply.py 136-142). -/
def validate_required_fields (c : BotConfig) : Except String Unit :=
  let missing := (required_pairs c).filter (fun p => p.2 == "")
  if missing.isEmpty then Except.ok ()
  else Except.error ("Missing required configuration fields: " ++
    String.intercalate ", " (missing.map Prod.fst))

/-- `BotConfig._validate_file_paths` (src/apply.py 144-156).  The filesystem
is an oracle: `resume_exists` and `resume_is_file` stand for
`Path(resume_path).exists()` and `.is_file()`.  The extension check only
logs a warning, so it is not modelled. -/
def validate_file_paths (c : BotConfig) (resume_exists resume_is_file : Bool) :
    Except String Unit :=
  if !resume_exists then Except.error ("Resume file not found: " ++ c.resume_path)
  else if !resume_is_file then
    Except.error ("Resume path is not a file: " ++ c.resume_path)
  else Except.ok ()

/-- Whitespace characters stripped by Python's `str.strip` (ASCII range). -/
def isPySpace (c : Char) : Bool :=
  c == ' ' || c == Char.ofNat 9 || c == Char.ofNat 10 || c == Char.ofNat 13 ||
  c == Char.ofNat 11 || c == Char.ofNat 12

/-- Strip leading and trailing whitespace, as Python's `str.strip()`. -/
def pyStrip (cs : List Char) : List Char :=
  ((cs.dropWhile isPySpace).reverse.dropWhile isPySpace).reverse

/-- After the first digit of an integer literal: digits, with single
underscores allowed between digits (CPython digit grouping). -/
def pyDigitsRest : List Char → Bool
  | [] => true
  | ['_'] => false
  | '_' :: c :: r => c.isDigit && pyDigitsRest r
  | c :: r => c.isDigit && pyDigitsRest r

/-- Whether CPython's `int(s)` succeeds, for ASCII `s`: optional surrounding
whitespace, an optional sign, then a digit string with optional single
underscores between digits. -/
def pyIntParses (s : String) : Bool :=
  let body :=
    match pyStrip s.toList with
    | '+' :: r => r
    | '-' :: r => r
    | r => r
  match body with
  | [] => false
  | c :: r => c.isDigit && pyDigitsRest r

/-- The `experience_fields` list of `_validate_experience_values`, paired
with the field values, in source order. -/
def experience_pairs (c : BotConfig) : List (String × String) :=
  [("python_exp", c.python_exp), ("javascript_exp", c.javascript_exp),
   ("java_exp", c.java_exp), ("aws_exp", c.aws_exp),
   ("django_exp", c.django_exp), ("analysis_exp", c.analysis_exp),
   ("teaching_exp", c.teaching_exp), ("programming_exp", c.programming_exp),
   ("default_exp", c.default_exp)]

/-- The loop body of `_validate_experience_values` (src/apply.py 158-172):
the first field whose value does not parse as an integer raises a
`ValueError` naming the field.  A parsed value outside [0, 50] only logs a
warning, so it does not affect the result. -/
def validateExperienceList : List (String × String) → Except String Unit
  | [] => Except.ok ()
  | (n, v) :: rest =>
    if pyIntParses v then validateExperienceList rest
    else Except.error ("Experience field " ++ n ++ " must be numeric, got: " ++ v)

/-- `BotConfig._validate_experience_values` (src/apply.py 158-172). -/
def validate_experience_values (c : BotConfig) : Except String Unit :=
  validateExperienceList (experience_pairs c)

/-- The `dangerous_chars` list of `_sanitize_inputs` (src/apply.py 177). -/
def dangerous_chars : List Char :=
  ['<', '>', Char.ofNat 34, Char.ofNat 39, '&', ';', '(', ')', '|', Char.ofNat 96]

/-- Python's `value.replace(ch, '')` for a single character: remove every
occurrence of `ch`. -/
def removeChar (s : String) (ch : Char) : String :=
  String.mk (s.toList.filter (fun c => c != ch))

/-- The per-field loop of `_sanitize_inputs`: remove each dangerous
character in turn. -/
def sanitizeStr (s : String) : String :=
  dangerous_chars.foldl removeChar s

/-- `BotConfig._sanitize_inputs` (src/apply.py 174-186): sanitize every
string field (`load_delay` is a float, so `isinstance(value, str)` skips
it). -/
def sanitize_inputs (c : BotConfig) : BotConfig :=
  { load_delay := c.load_delay
    resume_path := sanitizeStr c.resume_path
    phone := sanitizeStr c.phone
    address := sanitizeStr c.address
    city := sanitizeStr c.city
    postal := sanitizeStr c.postal
    state := sanitizeStr c.state
    github := sanitizeStr c.github
    linkedin := sanitizeStr c.linkedin
    university := sanitizeStr c.university
    python_exp := sanitizeStr c.python_exp
    javascript_exp := sanitizeStr c.javascript_exp
    java_exp := sanitizeStr c.java_exp
    aws_exp := sanitizeStr c.aws_exp
    django_exp := sanitizeStr c.django_exp
    analysis_exp := sanitizeStr c.analysis_exp
    teaching_exp := sanitizeStr c.teaching_exp
    programming_exp := sanitizeStr c.programming_exp
    default_exp := sanitizeStr c.default_exp
    salary := sanitizeStr c.salary
    work_authorized := sanitizeStr c.work_authorized
    education := sanitizeStr c.education
    sponsorship_needed := sanitizeStr c.sponsorship_needed
    commute_willing := sanitizeStr c.commute_willing
    commute_willing_alt := sanitizeStr c.commute_willing_alt
    preferred_shift := sanitizeStr c.preferred_shift
    disability_status := sanitizeStr c.disability_status
    dbs_check := sanitizeStr c.dbs_check
    criminal_record := sanitizeStr c.criminal_record
    valid_cert := sanitizeStr c.valid_cert
    gender := sanitizeStr c.gender
    available_hours := sanitizeStr c.available_hours
    interview_availability := sanitizeStr c.interview_availability
    default_unknown_answer := sanitizeStr c.default_unknown_answer }

/-- All 33 string-valued fields of a config, in declaration order. -/
def string_fields (c : BotConfig) : List String :=
  [c.resume_path, c.phone, c.address, c.city, c.postal, c.state, c.github,
   c.linkedin, c.university, c.python_exp, c.javascript_exp, c.java_exp,
   c.aws_exp, c.django_exp, c.analysis_exp, c.teaching_exp,
   c.programming_exp, c.default_exp, c.salary, c.work_authorized,
   c.education, c.sponsorship_needed, c.commute_willing,
   c.commute_willing_alt, c.preferred_shift, c.disability_status,
   c.dbs_check, c.criminal_record, c.valid_cert, c.gender,
   c.available_hours, c.interview_availability, c.default_unknown_answer]

/-- `BotConfig.__post_init__` (src/apply.py 129-134): the four steps in
source order; the first exception wins. -/
def post_init (c : BotConfig) (resume_exists resume_is_file : Bool) :
    Except String BotConfig :=
  match validate_required_fields c with
  | Except.error e => Except.error e
  | Except.ok _ =>
    match validate_file_paths c resume_exists resume_is_file with
    | Except.error e => Except.error e
    | Except.ok _ =>
      match validate_experience_values c with
      | Except.error e => Except.error e
      | Except.ok _ => Except.ok (sanitize_inputs c)

/-- `os.getenv(name, default)` over an environment oracle. -/
def getenvD (env : String → Option String) (name dflt : String) : String :=
  (env name).getD dflt

/-- The `BotConfig(...)` argument list of `load_config` (src/apply.py
188-230), before `__post_init__` runs.  `load_delay_val` stands for
`float(os.getenv('LOAD_DELAY', '2.0'))` (float parsing is outside the
claims) and `abspath` for `os.path.abspath`. -/
def load_config_raw (env : String → Option String) (abspath : String → String)
    (load_delay_val : ℚ) : BotConfig :=
  { load_delay := load_delay_val
    resume_path := abspath (getenvD env "RESUME_PATH" "resume.pdf")
    phone := getenvD env "PHONE_NUMBER" ""
    address := getenvD env "ADDRESS" ""
    city := getenvD env "CITY" ""
    postal := getenvD env "POSTAL_CODE" ""
    state := getenvD env "STATE" ""
    github := getenvD env "GITHUB_URL" ""
    linkedin := getenvD env "LINKEDIN_URL" ""
    university := getenvD env "UNIVERSITY" ""
    python_exp := getenvD env "PYTHON_EXPERIENCE" "0"
    javascript_exp := getenvD env "JAVASCRIPT_EXPERIENCE" "0"
    java_exp := getenvD env "JAVA_EXPERIENCE" "0"
    aws_exp := getenvD env "AWS_EXPERIENCE" "0"
    django_exp := getenvD env "DJANGO_EXPERIENCE" "0"
    analysis_exp := getenvD env "ANALYSIS_EXPERIENCE" "0"
    teaching_exp := getenvD env "TEACHING_EXPERIENCE" "0"
    programming_exp := getenvD env "PROGRAMMING_EXPERIENCE" "0"
    default_exp := getenvD env "DEFAULT_EXPERIENCE" "0"
    salary := getenvD env "SALARY_EXPECTATION" ""
    work_authorized := getenvD env "WORK_AUTHORIZED" "Yes"
    education := getenvD env "EDUCATION_LEVEL" "Bachelor"
    sponsorship_needed := getenvD env "SPONSORSHIP_NEEDED" "No"
    commute_willing := getenvD env "COMMUTE_WILLING" "Yes"
    commute_willing_alt := getenvD env "COMMUTE_WILLING_ALT" "Yes"
    preferred_shift := getenvD env "PREFERRED_SHIFT" "Day shift"
    disability_status := getenvD env "DISABILITY_STATUS" "Decline to answer"
    dbs_check := getenvD env "DBS_CHECK" "Yes"
    criminal_record := getenvD env "CRIMINAL_RECORD" "No"
    valid_cert := getenvD env "VALID_CERTIFICATE" "Yes"
    gender := getenvD env "GENDER" "Decline to answer"
    available_hours := getenvD env "AVAILABLE_HOURS" "Yes"
    interview_availability := getenvD env "INTERVIEW_AVAILABILITY" "Flexible"
    default_unknown_answer := getenvD env "DEFAULT_UNKNOWN_ANSWER" "Yes" }

/-- `load_config` (src/apply.py 188-237): construct the raw record and run
`__post_init__`; the `except` clause only logs and re-raises. -/
def load_config (env : String → Option String) (abspath : String → String)
    (load_delay_val : ℚ) (resume_exists resume_is_file : Bool) :
    Except String BotConfig :=
  post_init (load_config_raw env abspath load_delay_val) resume_exists resume_is_file

/-- Decomposition of `__post_init__` success. -/
lemma post_init_ok_iff (c : BotConfig) (re rf : Bool) (c' : BotConfig) :
    post_init c re rf = Except.ok c' ↔
      validate_required_fields c = Except.ok () ∧
      validate_file_paths c re rf = Except.ok () ∧
      validate_experience_values c = Except.ok () ∧
      c' = sanitize_inputs c := by
  cases h1 : validate_required_fields c with
  | error e => simp [post_init, h1]
  | ok u =>
    cases u
    cases h2 : validate_file_paths c re rf with
    | error e => simp [post_init, h1, h2]
    | ok u =>
      cases u
      cases h3 : validate_experience_values c with
      | error e => simp [post_init, h1, h2, h3]
      | ok u =>
        cases u
        simp [post_init, h1, h2, h3, eq_comm]

/-- Required-field validation succeeds exactly when all five fields are
non-empty. -/
lemma validate_required_fields_ok_iff (c : BotConfig) :
    validate_required_fields c = Except.ok () ↔
      (c.phone ≠ "" ∧ c.address ≠ "" ∧ c.city ≠ "" ∧ c.postal ≠ "" ∧
       c.state ≠ "") := by
  constructor
  · intro h
    have hempty :
        ((required_pairs c).filter (fun p => p.2 == "")).isEmpty = true := by
      by_contra hne
      simp only [validate_required_fields, Bool.not_eq_true] at h hne
      rw [if_neg (by simp [hne])] at h
      exact Except.noConfusion h
    have hnil := List.isEmpty_iff.mp hempty
    have hall := List.filter_eq_nil_iff.mp hnil
    refine ⟨?_, ?_, ?_, ?_, ?_⟩
    · have := hall ("phone", c.phone) (by simp [required_pairs])
      simpa using this
    · have := hall ("address", c.address) (by simp [required_pairs])
      simpa using this
    · have := hall ("city", c.city) (by simp [required_pairs])
      simpa using this
    · have := hall ("postal", c.postal) (by simp [required_pairs])
      simpa using this
    · have := hall ("state", c.state) (by simp [required_pairs])
      simpa using this
  · rintro ⟨hp, ha, hc, ho, hs⟩
    have hnil : (required_pairs c).filter (fun p => p.2 == "") = [] := by
      rw [List.filter_eq_nil_iff]
      intro a ha'
      simp only [required_pairs, List.mem_cons, List.mem_singleton] at ha'
      rcases ha' with rfl | rfl | rfl | rfl | rfl | h'
      · simpa using hp
      · simpa using ha
      · simpa using hc
      · simpa using ho
      · simpa using hs
      · exact absurd h' (List.not_mem_nil a)
    simp [validate_required_fields, hnil]

/-- Characters survive `removeChar` exactly when they differ from the
removed character. -/
lemma mem_removeChar_toList (s : String) (d a : Char) :
    a ∈ (removeChar s d).toList ↔ a ∈ s.toList ∧ a ≠ d := by
  show a ∈ s.toList.filter (fun c => c != d) ↔ _
  simp [List.mem_filter]

/-- Folding `removeChar` over a character list removes every listed
character and introduces none. -/
lemma foldl_removeChar_not_mem :
    ∀ (l : List Char) (s : String) (ch : Char),
      ch ∈ l ∨ ch ∉ s.toList → ch ∉ (l.foldl removeChar s).toList := by
  intro l
  induction l with
  | nil =>
    intro s ch h
    rcases h with h | h
    · exact absurd h (List.not_mem_nil ch)
    · simpa [List.foldl] using h
  | cons d t ih =>
    intro s ch h
    show ch ∉ (t.foldl removeChar (removeChar s d)).toList
    rcases h with h | h
    · rcases List.mem_cons.mp h with rfl | ht
      · exact ih (removeChar s ch) ch
          (Or.inr (fun hm => ((mem_removeChar_toList s ch ch).mp hm).2 rfl))
      · exact ih (removeChar s d) ch (Or.inl ht)
    · exact ih (removeChar s d) ch
        (Or.inr (fun hm => h ((mem_removeChar_toList s d ch).mp hm).1))

/-- No dangerous character survives sanitization of a string. -/
lemma sanitizeStr_not_mem (s : String) (ch : Char) (h : ch ∈ dangerous_chars) :
    ch ∉ (sanitizeStr s).toList :=
  foldl_removeChar_not_mem dangerous_chars s ch (Or.inl h)

/-- C10: after a successful `__post_init__`, no string field of the
resulting config contains any of the ten dangerous characters; the config is
never written again after construction, so the property holds for the whole
run. -/
theorem post_init_no_dangerous_chars (c : BotConfig) (re rf : Bool)
    (c' : BotConfig) (h : post_init c re rf = Except.ok c') :
    ∀ s ∈ string_fields c', ∀ ch ∈ dangerous_chars, ch ∉ s.toList := by
  obtain ⟨-, -, -, rfl⟩ := (post_init_ok_iff c re rf c').mp h
  intro s hs ch hch
  have hmap : string_fields (sanitize_inputs c) =
      (string_fields c).map sanitizeStr := rfl
  rw [hmap] at hs
  obtain ⟨t, -, rfl⟩ := List.mem_map.mp hs
  exact sanitizeStr_not_mem t ch hch

/-- A concrete config whose phone number contains a dangerous character. -/
def cfgDangerEx : BotConfig :=
  { load_delay := 2, resume_path := "resume.pdf", phone := "555<1234",
    address := "221B Baker Street", city := "London", postal := "NW16XE",
    state := "LDN", github := "", linkedin := "", university := "",
    python_exp := "0", javascript_exp := "0", java_exp := "0",
    aws_exp := "0", django_exp := "0", analysis_exp := "0",
    teaching_exp := "0", programming_exp := "0", default_exp := "0",
    salary := "", work_authorized := "Yes", education := "Bachelor",
    sponsorship_needed := "No", commute_willing := "Yes",
    commute_willing_alt := "Yes", preferred_shift := "Day shift",
    disability_status := "Decline to answer", dbs_check := "Yes",
    criminal_record := "No", valid_cert := "Yes",
    gender := "Decline to answer", available_hours := "Yes",
    interview_availability := "Flexible", default_unknown_answer := "Yes" }

/-- Witness for C10: the `<` in the sample phone number is gone from the
sanitized field. -/
theorem post_init_no_dangerous_chars_witness :
    ('<' : Char) ∉ ("5551234" : String).toList :=
  post_init_no_dangerous_chars cfgDangerEx true true
    (sanitize_inputs cfgDangerEx) rfl "5551234" (by decide) '<' (by decide)

/-- The experience-validation loop reports the first non-numeric field. -/
lemma validateExperienceList_error_of_bad :
    ∀ l : List (String × String), (∃ p ∈ l, pyIntParses p.2 = false) →
      ∃ n v, (n, v) ∈ l ∧ pyIntParses v = false ∧
        validateExperienceList l =
          Except.error ("Experience field " ++ n ++ " must be numeric, got: " ++ v) := by
  intro l
  induction l with
  | nil =>
    rintro ⟨p, hp, -⟩
    exact absurd hp (List.not_mem_nil p)
  | cons hd tl ih =>
    rintro ⟨p, hp, hbad⟩
    obtain ⟨n, v⟩ := hd
    by_cases hv : pyIntParses v = true
    · have htl : ∃ q ∈ tl, pyIntParses q.2 = false := by
        rcases List.mem_cons.mp hp with rfl | hmem
        · rw [hbad] at hv
          exact absurd hv (by simp)
        · exact ⟨p, hmem, hbad⟩
      obtain ⟨n', v', hmem, hb, heq⟩ := ih htl
      exact ⟨n', v', List.mem_cons_of_mem _ hmem, hb,
        by simp [validateExperienceList, hv, heq]⟩
    · have hv' : pyIntParses v = false := by simpa using hv
      exact ⟨n, v, List.mem_cons_self _ _, hv',
        by simp [validateExperienceList, hv']⟩

/-- C7: if required-field and file-path validation pass but some experience
field does not parse as an integer, `__post_init__` fails with an error
naming a non-parsing experience field (the first one, in source order), so
startup aborts before any browser action. -/
theorem experience_failure_names_field (c : BotConfig) (re rf : Bool)
    (hreq : validate_required_fields c = Except.ok ())
    (hfile : validate_file_paths c re rf = Except.ok ())
    (hbad : ∃ p ∈ experience_pairs c, pyIntParses p.2 = false) :
    ∃ n v, (n, v) ∈ experience_pairs c ∧ pyIntParses v = false ∧
      post_init c re rf =
        Except.error ("Experience field " ++ n ++ " must be numeric, got: " ++ v) := by
  obtain ⟨n, v, hmem, hb, heq⟩ := validateExperienceList_error_of_bad _ hbad
  refine ⟨n, v, hmem, hb, ?_⟩
  simp [post_init, hreq, hfile, validate_experience_values, heq]

/-- A concrete config with a non-numeric experience value. -/
def cfgBadExpEx : BotConfig :=
  { cfgDangerEx with phone := "5551234", python_exp := "five" }

/-- Witness for C7 at a config whose python experience is `"five"`. -/
theorem experience_failure_names_field_witness :
    ∃ n v, (n, v) ∈ experience_pairs cfgBadExpEx ∧ pyIntParses v = false ∧
      post_init cfgBadExpEx true true =
        Except.error ("Experience field " ++ n ++ " must be numeric, got: " ++ v) :=
  experience_failure_names_field cfgBadExpEx true true rfl rfl
    ⟨("python_exp", "five"), by decide, by decide⟩

/-- Environment for the C5 counterexample: the phone number is the single
character `(`, which is non-empty at validation time but consists entirely
of dangerous characters. -/
def envParenPhone : String → Option String := fun n =>
  if n = "PHONE_NUMBER" then some "("
  else if n = "ADDRESS" then some "221B Baker Street"
  else if n = "CITY" then some "London"
  else if n = "POSTAL_CODE" then some "NW16XE"
  else if n = "STATE" then some "LDN"
  else none

/-- Projection used to state the counterexample without binders. -/
def config_phone_of : Except String BotConfig → Option String
  | Except.ok c => some c.phone
  | Except.error _ => none

/-- Counterexample to C5: `load_config` succeeds on `envParenPhone` (the
phone `"("` passes the non-empty check, which runs before sanitization),
yet the returned config's phone field is the empty string. -/
theorem load_config_sanitize_empties_required :
    config_phone_of (load_config envParenPhone id 2 true true) = some "" := by
  decide

/-- C5 (amended): on every successful `load_config`, the required fields
were non-empty as loaded from the environment (validation runs before
sanitization), and the returned config is exactly the sanitized raw config
— so a required field consisting entirely of dangerous characters can be
empty in the returned config. -/
theorem load_config_required_nonempty_as_loaded
    (env : String → Option String) (abspath : String → String) (d : ℚ)
    (re rf : Bool) (cfg : BotConfig)
    (h : load_config env abspath d re rf = Except.ok cfg) :
    ((load_config_raw env abspath d).phone ≠ "" ∧
     (load_config_raw env abspath d).address ≠ "" ∧
     (load_config_raw env abspath d).city ≠ "" ∧
     (load_config_raw env abspath d).postal ≠ "" ∧
     (load_config_raw env abspath d).state ≠ "") ∧
    cfg = sanitize_inputs (load_config_raw env abspath d) := by
  obtain ⟨hreq, -, -, rfl⟩ := (post_init_ok_iff _ re rf cfg).mp h
  exact ⟨(validate_required_fields_ok_iff _).mp hreq, rfl⟩

/-- A fully valid environment. -/
def envValidEx : String → Option String := fun n =>
  if n = "PHONE_NUMBER" then some "5551234567"
  else if n = "ADDRESS" then some "221B Baker Street"
  else if n = "CITY" then some "London"
  else if n = "POSTAL_CODE" then some "NW16XE"
  else if n = "STATE" then some "LDN"
  else none

/-- Witness for the amended C5 on a valid environment. -/
theorem load_config_required_nonempty_as_loaded_witness :
    ((load_config_raw envValidEx id 2).phone ≠ "" ∧
     (load_config_raw envValidEx id 2).address ≠ "" ∧
     (load_config_raw envValidEx id 2).city ≠ "" ∧
     (load_config_raw envValidEx id 2).postal ≠ "" ∧
     (load_config_raw envValidEx id 2).state ≠ "") ∧
    sanitize_inputs (load_config_raw envValidEx id 2) =
      sanitize_inputs (load_config_raw envValidEx id 2) :=
  load_config_required_nonempty_as_loaded envValidEx id 2 true true
    (sanitize_inputs (load_config_raw envValidEx id 2)) rfl

/-! ## Rate limiter (`RateLimiter.wait_if_needed`, src/apply.py 350-363)

Timestamps (Python `time.time()` floats) are modelled as rationals.  The
function is pure state passing: given the retained request timestamps and
the current time `now`, it returns the time at which the call returns
(`now` plus any sleep) together with the new timestamp list.  `none` models
the `IndexError` Python would raise reading `requests[0]` when the pruned
list is empty yet already at the limit (only possible with
`max_requests = 0`). -/

def wait_if_needed (max_requests : ℕ) (time_window : ℚ) (requests : List ℚ)
    (now : ℚ) : Option (ℚ × List ℚ) :=
  let pruned := requests.filter (fun t => now - t < time_window)
  if max_requests ≤ pruned.length then
    match pruned with
    | [] => none
    | t0 :: rest =>
      some (now + (time_window - (now - t0) + 1), (t0 :: rest) ++ [now])
  else some (now, pruned ++ [now])

/-- Counterexample to C4: with `max_requests = 2`, `time_window = 10`,
retained timestamps `[0, 5]` (both within the window at `now = 6`), the 3rd
caller is released at time 11, not at `window_start + 10 = 10`: the code
adds an extra second (`+ 1`) to the sleep. -/
theorem wait_if_needed_counterexample :
    wait_if_needed 2 10 [0, 5] 6 = some (11, [0, 5, 6]) ∧
    (11 : ℚ) ≠ 0 + 10 := by
  have hf : ([0, 5] : List ℚ).filter (fun t => decide ((6 : ℚ) - t < 10)) =
      [0, 5] := by
    norm_num [List.filter]
  constructor
  · simp only [wait_if_needed]
    rw [hf, if_pos (by norm_num)]
    norm_num
  · norm_num

/-- C4 (amended): whenever the pruned window is at or over the limit, the
caller blocks until exactly `window_start + time_window + 1` has elapsed,
where `window_start` is the oldest retained timestamp; the pre-sleep `now`
is then appended to the window. -/
theorem wait_if_needed_blocks_window_plus_one (max_requests : ℕ)
    (time_window : ℚ) (requests : List ℚ) (now t0 : ℚ) (rest : List ℚ)
    (hp : requests.filter (fun t => now - t < time_window) = t0 :: rest)
    (hlen : max_requests ≤ (t0 :: rest).length) :
    wait_if_needed max_requests time_window requests now =
      some (t0 + time_window + 1, (t0 :: rest) ++ [now]) := by
  have harith : now + (time_window - (now - t0) + 1) = t0 + time_window + 1 := by
    ring
  simp only [wait_if_needed, hp]
  rw [if_pos hlen, harith]

/-- Witness for the amended C4 at the counterexample input. -/
theorem wait_if_needed_blocks_window_plus_one_witness :
    wait_if_needed 2 10 [0, 5] 6 = some ((0 : ℚ) + 10 + 1, [0, 5] ++ [6]) :=
  wait_if_needed_blocks_window_plus_one 2 10 [0, 5] 6 0 [5]
    (by norm_num [List.filter]) (by norm_num)

/-! ## Click helper (`SafeElementHandler.safe_click`, src/apply.py 451-483)

Each strategy attempt is summarized by its outcome: success, a
click-intercepted or stale-element error (caught, logged at debug, fall
through to the next strategy), or any other exception (caught, logged as a
warning, also falls through via `continue`).  The cosmetic human-behavior
calls and sleeps have no effect on the result. -/

inductive ClickOutcome where
  | ok
  | intercepted
  | stale
  | otherError
deriving DecidableEq

/-- The strategy loop of `safe_click`: return `true` at the first strategy
that does not raise; every failing strategy falls through to the next; when
the list is exhausted, return `false`. -/
def safe_click_go : List ClickOutcome → Bool
  | [] => false
  | ClickOutcome.ok :: _ => true
  | _ :: rest => safe_click_go rest

/-- `safe_click` (src/apply.py 451-483).  `element_present` models the
`if not element: return False` guard; the source always tries the three
strategies direct click, script-dispatched click, move-then-click, in that
order. -/
def safe_click (element_present : Bool) (strategies : List ClickOutcome) : Bool :=
  if element_present then safe_click_go strategies else false

/-- Counterexample to C6: a present element whose three strategies all raise
a *generic* exception (neither click-intercepted nor stale-element) also
makes `safe_click` return `false` — the generic `except Exception` branch
falls through to the next strategy exactly like the intercepted/stale
branch, so "returns False only if all three raise click-intercepted or
stale-element errors" is false. -/
theorem safe_click_counterexample :
    safe_click true
      [ClickOutcome.otherError, ClickOutcome.otherError, ClickOutcome.otherError] =
      false ∧
    ClickOutcome.otherError ≠ ClickOutcome.intercepted ∧
    ClickOutcome.otherError ≠ ClickOutcome.stale := by
  decide

/-- C6 (amended): with a present element, `safe_click` tries the three
strategies in order, falling through on any failure, and returns `false`
precisely when no strategy succeeds — whether the failures are
click-intercepted, stale-element, or any other exception; in particular a
click-intercepted first attempt followed by a successful script-dispatched
attempt yields `true`. -/
theorem safe_click_false_iff_all_fail (o1 o2 o3 : ClickOutcome) :
    (safe_click true [o1, o2, o3] = false ↔
      o1 ≠ ClickOutcome.ok ∧ o2 ≠ ClickOutcome.ok ∧ o3 ≠ ClickOutcome.ok) ∧
    safe_click true [ClickOutcome.intercepted, ClickOutcome.ok, o3] = true ∧
    safe_click true [ClickOutcome.intercepted, ClickOutcome.intercepted,
      ClickOutcome.ok] = true := by
  cases o1 <;> cases o2 <;> cases o3 <;> decide

/-- Witness for the amended C6. -/
theorem safe_click_false_iff_all_fail_witness :
    safe_click true
      [ClickOutcome.otherError, ClickOutcome.intercepted, ClickOutcome.stale] =
      false ∧
    safe_click true
      [ClickOutcome.intercepted, ClickOutcome.ok, ClickOutcome.stale] = true :=
  ⟨(safe_click_false_iff_all_fail ClickOutcome.otherError
      ClickOutcome.intercepted ClickOutcome.stale).1.mpr (by decide),
   (safe_click_false_iff_all_fail ClickOutcome.otherError
      ClickOutcome.intercepted ClickOutcome.stale).2.1⟩

/-! ## Contact handler (`handle_contact_page`, src/apply.py 993-1024)

The page is an oracle from CSS selector to the element `find_element`
returns: `none` models `NoSuchElementException` (skipped with `continue`).
A found field carries `is_enabled()` and its current `value` attribute
(Python treats the empty string as falsy).  Each selector is assumed to
resolve to a distinct input element, as on the real form. -/

structure ContactField where
  enabled : Bool
  value : String
deriving DecidableEq

/-- The `contact_fields` selector/value list (src/apply.py 996-1003),
in source order. -/
def contact_fields (c : BotConfig) : List (String × String) :=
  [("input[name*=\"phone\"]", c.phone),
   ("input[name*=\"address\"]", c.address),
   ("input[name*=\"city\"]", c.city),
   ("input[name*=\"state\"]", c.state),
   ("input[name*=\"zip\"]", c.postal),
   ("input[name*=\"postal\"]", c.postal)]

/-- The fill loop of `handle_contact_page`: returns the number of fields
filled together with the selectors written to (`filled_count` and, as ghost
instrumentation, the write log). -/
def fill_contact_fields (page : String → Option ContactField) :
    List (String × String) → ℕ × List String
  | [] => (0, [])
  | (sel, v) :: rest =>
    if v ≠ "" then
      match page sel with
      | some f =>
        if f.enabled = true ∧ f.value = "" then
          let r := fill_contact_fields page rest
          (r.1 + 1, sel :: r.2)
        else fill_contact_fields page rest
      | none => fill_contact_fields page rest
    else fill_contact_fields page rest

/-- `handle_contact_page` (src/apply.py 993-1024): `filled_count > 0`. -/
def handle_contact_page (c : BotConfig) (page : String → Option ContactField) :
    Bool :=
  decide (0 < (fill_contact_fields page (contact_fields c)).1)

/-- The fill count equals the number of logged writes, and every write went
to a found, enabled, currently-empty field whose profile value was
non-empty. -/
lemma fill_contact_fields_spec (page : String → Option ContactField) :
    ∀ pairs : List (String × String),
      (fill_contact_fields page pairs).1 =
        (fill_contact_fields page pairs).2.length ∧
      ∀ sel ∈ (fill_contact_fields page pairs).2,
        ∃ f v, (sel, v) ∈ pairs ∧ v ≠ "" ∧ page sel = some f ∧
          f.enabled = true ∧ f.value = "" := by
  intro pairs
  induction pairs with
  | nil => exact ⟨rfl, by intro sel h; exact absurd h (List.not_mem_nil sel)⟩
  | cons hd tl ih =>
    obtain ⟨sel, v⟩ := hd
    by_cases hv : v ≠ ""
    · cases hpg : page sel with
      | none =>
        refine ⟨?_, ?_⟩
        · simpa [fill_contact_fields, hv, hpg] using ih.1
        · intro s hs
          rw [show fill_contact_fields page ((sel, v) :: tl) =
            fill_contact_fields page tl by simp [fill_contact_fields, hv, hpg]] at hs
          obtain ⟨f, v', hm, hv', hp, he, hval⟩ := ih.2 s hs
          exact ⟨f, v', List.mem_cons_of_mem _ hm, hv', hp, he, hval⟩
      | some f =>
        by_cases hok : f.enabled = true ∧ f.value = ""
        · have hunf : fill_contact_fields page ((sel, v) :: tl) =
              ((fill_contact_fields page tl).1 + 1,
               sel :: (fill_contact_fields page tl).2) := by
            simp [fill_contact_fields, hv, hpg, hok]
          refine ⟨?_, ?_⟩
          · rw [hunf]
            simpa using ih.1
          · intro s hs
            rw [hunf] at hs
            rcases List.mem_cons.mp hs with rfl | hs'
            · exact ⟨f, v, List.mem_cons_self _ _, hv, hpg, hok.1, hok.2⟩
            · obtain ⟨f', v', hm, hv', hp, he, hval⟩ := ih.2 s hs'
              exact ⟨f', v', List.mem_cons_of_mem _ hm, hv', hp, he, hval⟩
        · have hunf : fill_contact_fields page ((sel, v) :: tl) =
              fill_contact_fields page tl := by
            simp [fill_contact_fields, hv, hpg, hok]
          refine ⟨?_, ?_⟩
          · rw [hunf]; exact ih.1
          · intro s hs
            rw [hunf] at hs
            obtain ⟨f', v', hm, hv', hp, he, hval⟩ := ih.2 s hs
            exact ⟨f', v', List.mem_cons_of_mem _ hm, hv', hp, he, hval⟩
    · have hunf : fill_contact_fields page ((sel, v) :: tl) =
          fill_contact_fields page tl := by
        simp [fill_contact_fields, hv]
      refine ⟨?_, ?_⟩
      · rw [hunf]; exact ih.1
      · intro s hs
        rw [hunf] at hs
        obtain ⟨f', v', hm, hv', hp, he, hval⟩ := ih.2 s hs
        exact ⟨f', v', List.mem_cons_of_mem _ hm, hv', hp, he, hval⟩

/-- C8: `handle_contact_page` writes a profile value into a contact field
only when the field is found, enabled, and currently empty (and the profile
value is non-empty), and it returns `true` exactly when at least one field
was filled during the call. -/
theorem handle_contact_page_spec (c : BotConfig)
    (page : String → Option ContactField) :
    (handle_contact_page c page = true ↔
      (fill_contact_fields page (contact_fields c)).2 ≠ []) ∧
    ∀ sel ∈ (fill_contact_fields page (contact_fields c)).2,
      ∃ f v, (sel, v) ∈ contact_fields c ∧ v ≠ "" ∧ page sel = some f ∧
        f.enabled = true ∧ f.value = "" := by
  obtain ⟨hlen, hwrites⟩ := fill_contact_fields_spec page (contact_fields c)
  refine ⟨?_, hwrites⟩
  rw [handle_contact_page, decide_eq_true_eq, hlen]
  simp [List.length_pos]

/-- A concrete page holding exactly one empty, enabled phone input. -/
def pagePhoneEx : String → Option ContactField := fun sel =>
  if sel = "input[name*=\"phone\"]" then some { enabled := true, value := "" }
  else none

/-- A config with all required fields present (phone sanitized sample). -/
def cfgContactEx : BotConfig := { cfgDangerEx with phone := "5551234" }

/-- Witness for C8: the handler fills the phone field and reports `true`;
the write log shows the phone selector hit an enabled empty field. -/
theorem handle_contact_page_spec_witness :
    handle_contact_page cfgContactEx pagePhoneEx = true ∧
    ∃ f v, ("input[name*=\"phone\"]", v) ∈ contact_fields cfgContactEx ∧
      v ≠ "" ∧ pagePhoneEx "input[name*=\"phone\"]" = some f ∧
      f.enabled = true ∧ f.value = "" :=
  ⟨(handle_contact_page_spec cfgContactEx pagePhoneEx).1.mpr (by decide),
   (handle_contact_page_spec cfgContactEx pagePhoneEx).2
     "input[name*=\"phone\"]" (by decide)⟩

/-! ## Advance button (`proceed_to_next_step`, src/apply.py 1140-1187)

Python lets the function return either the string `'submitted'` or a
boolean; `PyResult` captures that dynamically-typed return value, and
`pytruthy` is Python truthiness (a string is truthy when non-empty).

The 13 CSS selectors produce, in priority order, candidate buttons; the scan
over them is flattened into one button list in visit order (a per-selector
exception only skips that selector's remaining buttons, which the flat list
also represents by omitting them). -/

inductive PyResult where
  | pystr (s : String)
  | pybool (b : Bool)
deriving DecidableEq

/-- Python truthiness of the value `proceed_to_next_step` returns. -/
def pytruthy : PyResult → Bool
  | PyResult.pystr s => !(s == "")
  | PyResult.pybool b => b

/-- A candidate button as the scan observes it: `is_enabled()`,
`is_displayed()`, `.text`, the `aria-label`, `disabled` and `class`
attributes, and whether `safe_click` on it succeeds. -/
structure Button where
  enabled : Bool
  displayed : Bool
  text : String
  ariaLabel : String
  disabledAttr : Bool
  classAttr : String
  clickOk : Bool
deriving DecidableEq

/-- `(button.text or button.get_attribute('aria-label') or '').lower()`. -/
def button_text (b : Button) : String :=
  str_lower (if b.text ≠ "" then b.text
             else if b.ariaLabel ≠ "" then b.ariaLabel else "")

/-- The submit-word check of src/apply.py line 1178. -/
def submit_words : List String := ["submit", "complete", "finish"]

/-- `proceed_to_next_step` (src/apply.py 1140-1187): scan the candidate
buttons in order; skip a button unless it is enabled and displayed and
neither its `disabled` attribute nor a `disabled` class marks it; click the
first eligible button; on click success return `'submitted'` when the
button text contains a submit word and `True` otherwise; on click failure
keep scanning; return `False` when no button worked. -/
def proceed_to_next_step : List Button → PyResult
  | [] => PyResult.pybool false
  | b :: rest =>
    if b.enabled && b.displayed then
      if b.disabledAttr || strContains b.classAttr "disabled" then
        proceed_to_next_step rest
      else if b.clickOk then
        if submit_words.any (fun w => strContains (button_text b) w) then
          PyResult.pystr "submitted"
        else PyResult.pybool true
      else proceed_to_next_step rest
    else proceed_to_next_step rest

/-! ## Workflow driver (`process_application_workflow`, src/apply.py
787-847)

Per-step browser observations are oracle functions of the step index:
whether `check_already_applied` fires at step entry, the `PageProbe` the
classifier reads, the (discarded) return value of the dispatched page
handler, the result of `proceed_to_next_step`, and whether
`check_application_submitted` fires after a successful advance.  The result
pairs the Python return value with a ghost count of executed
classify-handle-advance steps. -/

structure WorkflowEnv where
  alreadyApplied : ℕ → Bool
  page : ℕ → PageProbe
  handlerResult : ℕ → Bool
  advance : ℕ → PyResult
  submitted : ℕ → Bool

/-- The `for step in range(max_workflow_steps)` loop body.  The classifier
runs and a handler is dispatched on the classified type, but the driver
discards the handler's return value, so neither affects control flow;
a falsy advance result breaks out of the loop; exhausted fuel returns
`False`. -/
def workflow_loop (env : WorkflowEnv) : ℕ → ℕ → Bool × ℕ
  | _, 0 => (false, 0)
  | s, fuel + 1 =>
    if env.alreadyApplied s then (true, 0)
    else
      let _page_info := detect_page_type (env.page s)
      let _handled := env.handlerResult s
      if pytruthy (env.advance s) then
        if env.submitted s then (true, 1)
        else
          let r := workflow_loop env (s + 1) fuel
          (r.1, r.2 + 1)
      else (false, 1)

/-- `max_workflow_steps = 12` (src/apply.py line 801). -/
def max_workflow_steps : ℕ := 12

/-- `process_application_workflow` (src/apply.py 787-847), from step 0 with
the full step budget. -/
def process_application_workflow (env : WorkflowEnv) : Bool × ℕ :=
  workflow_loop env 0 max_workflow_steps

/-- When no terminal condition fires and every advance is truthy, the loop
consumes all its fuel and fails. -/
lemma workflow_loop_exhausts (env : WorkflowEnv) :
    ∀ (fuel s : ℕ),
      (∀ i, s ≤ i → i < s + fuel →
        env.alreadyApplied i = false ∧ pytruthy (env.advance i) = true ∧
        env.submitted i = false) →
      workflow_loop env s fuel = (false, fuel) := by
  intro fuel
  induction fuel with
  | zero => intro s _; rfl
  | succ n ih =>
    intro s h
    obtain ⟨ha, hadv, hsub⟩ := h s (le_refl s) (by omega)
    have hrec := ih (s + 1) (fun i hge hlt => h i (by omega) (by omega))
    simp [workflow_loop, ha, hadv, hsub, hrec]

/-- C1: in a run where no step detects the already-applied terminal
condition, every advance attempt returns a truthy value, and the submitted
terminal condition never fires, the driver executes exactly 12
classify-handle-advance steps and then returns failure (`False`). -/
theorem workflow_abandons_after_12 (env : WorkflowEnv)
    (h1 : ∀ i, i < 12 → env.alreadyApplied i = false)
    (h2 : ∀ i, i < 12 → pytruthy (env.advance i) = true)
    (h3 : ∀ i, i < 12 → env.submitted i = false) :
    process_application_workflow env = (false, 12) :=
  workflow_loop_exhausts env 12 0
    (fun i _ hlt => ⟨h1 i (by omega), h2 i (by omega), h3 i (by omega)⟩)

/-- The non-terminating fixture: never applied, every advance click
succeeds, the submitted banner never appears. -/
def envNonTerminating : WorkflowEnv :=
  { alreadyApplied := fun _ => false
    page := fun _ => { heading := none, hasFileInput := false,
                       hasQuestionsItem := false, hasPhoneEmailInput := false }
    handlerResult := fun _ => false
    advance := fun _ => PyResult.pybool true
    submitted := fun _ => false }

/-- Witness for C1 on the non-terminating fixture. -/
theorem workflow_abandons_after_12_witness :
    process_application_workflow envNonTerminating = (false, 12) :=
  workflow_abandons_after_12 envNonTerminating (fun _ _ => rfl)
    (fun _ _ => rfl) (fun _ _ => rfl)

/-- Case analysis of the button scan: either no button is clicked and the
result is `False`, or some eligible button is clicked and the result is
`'submitted'` or `True` according to its text — both truthy. -/
lemma proceed_scan_cases :
    ∀ bs : List Button,
      proceed_to_next_step bs = PyResult.pybool false ∨
      ∃ b, b ∈ bs ∧ b.enabled = true ∧ b.displayed = true ∧
        b.disabledAttr = false ∧ strContains b.classAttr "disabled" = false ∧
        b.clickOk = true ∧
        proceed_to_next_step bs =
          (if submit_words.any (fun w => strContains (button_text b) w) then
            PyResult.pystr "submitted"
          else PyResult.pybool true) ∧
        pytruthy (proceed_to_next_step bs) = true := by
  intro bs
  induction bs with
  | nil => left; rfl
  | cons b rest ih =>
    have skip :
        proceed_to_next_step (b :: rest) = proceed_to_next_step rest →
        (proceed_to_next_step (b :: rest) = PyResult.pybool false ∨
          ∃ b', b' ∈ b :: rest ∧ b'.enabled = true ∧ b'.displayed = true ∧
            b'.disabledAttr = false ∧
            strContains b'.classAttr "disabled" = false ∧ b'.clickOk = true ∧
            proceed_to_next_step (b :: rest) =
              (if submit_words.any (fun w => strContains (button_text b') w) then
                PyResult.pystr "submitted"
              else PyResult.pybool true) ∧
            pytruthy (proceed_to_next_step (b :: rest)) = true) := by
      intro hunf
      rcases ih with h | ⟨b', hmem, he, hd, hda, hcl, hck, heq, ht⟩
      · left; rw [hunf]; exact h
      · right
        exact ⟨b', List.mem_cons_of_mem _ hmem, he, hd, hda, hcl, hck,
          by rw [hunf]; exact heq, by rw [hunf]; exact ht⟩
    by_cases h1 : (b.enabled && b.displayed) = true
    · by_cases h2 : (b.disabledAttr || strContains b.classAttr "disabled") = true
      · exact skip (by simp [proceed_to_next_step, h1, h2])
      · by_cases h3 : b.clickOk = true
        · right
          obtain ⟨he, hd⟩ : b.enabled = true ∧ b.displayed = true := by
            simpa using h1
          have h2' : b.disabledAttr = false ∧
              strContains b.classAttr "disabled" = false := by
            simpa [Bool.or_eq_true, not_or] using h2
          have hunf : proceed_to_next_step (b :: rest) =
              (if submit_words.any (fun w => strContains (button_text b) w) then
                PyResult.pystr "submitted"
              else PyResult.pybool true) := by
            simp [proceed_to_next_step, h1, h2, h3]
          refine ⟨b, List.mem_cons_self _ _, he, hd, h2'.1, h2'.2, h3, hunf, ?_⟩
          rw [hunf]
          by_cases hc :
              (submit_words.any (fun w => strContains (button_text b) w)) = true
          · simp [hc, pytruthy]
          · simp [hc, pytruthy]
        · exact skip (by simp [proceed_to_next_step, h1, h2, h3])
    · exact skip (by simp [proceed_to_next_step, h1])

/-- The driver's control flow depends on its advance results only through
their truthiness (and on the two terminal oracles); the classifier input and
handler results do not matter at all. -/
lemma workflow_loop_truthy_congr (e1 e2 : WorkflowEnv)
    (ha : e1.alreadyApplied = e2.alreadyApplied)
    (hs : e1.submitted = e2.submitted)
    (hadv : ∀ i, pytruthy (e1.advance i) = pytruthy (e2.advance i)) :
    ∀ fuel s, workflow_loop e1 s fuel = workflow_loop e2 s fuel := by
  intro fuel
  induction fuel with
  | zero => intro s; rfl
  | succ n ih =>
    intro s
    simp only [workflow_loop]
    rw [ha, hs, hadv s, ih (s + 1)]

/-- C9: a successful click yields the string `'submitted'` when the button
text contains `submit`, `complete` or `finish` and the boolean `True`
otherwise, both truthy; and the workflow driver that consumes the result
depends only on its truthiness. -/
theorem proceed_to_next_step_truthiness :
    (∀ bs : List Button,
      proceed_to_next_step bs = PyResult.pybool false ∨
      ∃ b, b ∈ bs ∧ b.enabled = true ∧ b.displayed = true ∧
        b.disabledAttr = false ∧ strContains b.classAttr "disabled" = false ∧
        b.clickOk = true ∧
        proceed_to_next_step bs =
          (if submit_words.any (fun w => strContains (button_text b) w) then
            PyResult.pystr "submitted"
          else PyResult.pybool true) ∧
        pytruthy (proceed_to_next_step bs) = true) ∧
    (∀ e1 e2 : WorkflowEnv, e1.alreadyApplied = e2.alreadyApplied →
      e1.submitted = e2.submitted →
      (∀ i, pytruthy (e1.advance i) = pytruthy (e2.advance i)) →
      process_application_workflow e1 = process_application_workflow e2) :=
  ⟨proceed_scan_cases,
   fun e1 e2 ha hs hadv =>
     workflow_loop_truthy_congr e1 e2 ha hs hadv max_workflow_steps 0⟩

/-- An environment whose advance steps return the string `'submitted'`. -/
def envAdvStr : WorkflowEnv :=
  { alreadyApplied := fun _ => false
    page := fun _ => { heading := some "Upload your resume",
                       hasFileInput := true, hasQuestionsItem := false,
                       hasPhoneEmailInput := false }
    handlerResult := fun _ => true
    advance := fun _ => PyResult.pystr "submitted"
    submitted := fun _ => true }

/-- The same runs with the boolean `True` instead (and a different page and
handler outcome). -/
def envAdvBool : WorkflowEnv :=
  { alreadyApplied := fun _ => false
    page := fun _ => { heading := none, hasFileInput := false,
                       hasQuestionsItem := false, hasPhoneEmailInput := false }
    handlerResult := fun _ => false
    advance := fun _ => PyResult.pybool true
    submitted := fun _ => true }

/-- Witness for C9: swapping `'submitted'` for `True` (and changing the
pages and handler results) leaves the driver's behavior unchanged. -/
theorem proceed_to_next_step_truthiness_witness :
    process_application_workflow envAdvStr =
      process_application_workflow envAdvBool :=
  proceed_to_next_step_truthiness.2 envAdvStr envAdvBool rfl rfl
    (fun _ => rfl)

end IndeedBot
